import Mathlib

/-!
Verification of the process-supervision core of the hauba-cli repository:
the PID registry (`readDaemonPid` / `writeDaemonPid` / `removeDaemonPid` in
`src/commands/persona.ts` (daemon.ts part), `readPidFile` in
`src/commands/start.ts`, `getGatewayStatus` in `src/commands/version.ts`
(gateway.ts part)), the liveness prober (`isProcessRunning`,
`checkDaemonHealth`, `fetchDaemonHealth`), the health poller
(`waitForHealth`) and the start/stop command flows.

JavaScript values read out of the JSON PID files are embedded as the
inductive `Jsonv`; the pieces of JavaScript semantics the code relies on
(truthiness, property access throwing on `null`, `parseInt` on the raw
file text, `process.kill` rejecting non-numeric pids) are given as small
total functions, each documented against the corresponding JS behaviour.
-/

namespace Hauba

/-- Result of `JSON.parse` on a PID-file text.  Object fields keep source
order; the writers in this repository never produce duplicate keys, so a
first-match lookup agrees with the JS last-wins rule.  A number is split
by the spelling of its source text: `num n` is an integer-valued number
written in canonical decimal form (the only form either launcher writes;
its text re-parses with `parseInt` to `n` itself), while `numOther`
covers every other JSON number text — a non-integer value such as `3.5`,
or a non-canonical spelling such as `1e3` — carrying its value when that
value is an integer (`none` for non-integers, which `process.kill`
rejects) together with the result of `parseInt` on its raw text (always
an integer, since a JSON number text begins with an optional sign and a
digit: `parseInt("3.5")` is `3`, `parseInt("1e3")` is `1`). -/
inductive Jsonv where
  | num (n : Int)
  | numOther (value : Option Int) (intPrefix : Int)
  | str (s : String)
  | boolv (b : Bool)
  | nullv
  | arr
  | obj (fields : List (String × Jsonv))

/-- The daemon PID record: `{ pid, startedAt, port, version, workDir }`,
as written by `writeDaemonPid` (daemon.ts) and `startDaemon` (start.ts). -/
structure DaemonInfo where
  pid : Int
  startedAt : String
  port : Int
  version : String
  workDir : String

/-- JavaScript truthiness of a parsed JSON value: `0`, `""`, `false` and
`null` are falsy; every object and array is truthy. -/
def jsTruthy : Jsonv → Bool
  | .num n => !(n == 0)
  | .numOther (some n) _ => !(n == 0)
  | .numOther none _ => true
  | .str s => !(s == "")
  | .boolv b => b
  | .nullv => false
  | .arr => true
  | .obj _ => true

/-- Property access `v[key]` in JS on a parsed JSON value.  `none`: the
access throws a `TypeError` (the value is `null`); `some none`: the result
is `undefined` (non-object, or the field is absent); `some (some w)`: the
field is present with value `w`. -/
def fieldAccess (key : String) : Jsonv → Option (Option Jsonv)
  | .nullv => none
  | .obj fields => some (List.lookup key fields)
  | _ => some none

/-- Numeric payload of a JS value as accepted by `process.kill`: only
integer-valued numbers pass its `pid === pid | 0` validation; it throws
on strings, booleans, objects, `NaN` and non-integer numbers such as
`3.5`. -/
def jsNumOf : Jsonv → Option Int
  | .num n => some n
  | .numOther v _ => v
  | _ => none

/-- Result of `parseInt(text.trim(), 10)` applied to the source text of
a parsed JSON value.  A canonically written integer parses to itself;
any other number text parses to the integer made of its leading digits
(recorded in `numOther`, e.g. `3` for the text `3.5`); every non-number
JSON text starts with a non-digit character (quote, brace, bracket, or a
letter of `true`/`false`/`null`), so `parseInt` yields `NaN`, modelled
as `none`. -/
def parseIntOfJsonText : Jsonv → Option Int
  | .num n => some n
  | .numOther _ ip => some ip
  | _ => none

/-- Content of a PID file on disk. `valid j`: the text is valid JSON with
value `j`. `invalid p`: `JSON.parse` throws on the text, and
`parseInt(text.trim(), 10)` yields `p` (`none` for `NaN`). -/
inductive FileContent where
  | valid (j : Jsonv)
  | invalid (intPrefix : Option Int)

/-- Result of `parseInt(content.trim(), 10)` on the raw file text, used by
`getGatewayStatus`, which does not run the text through `JSON.parse`. -/
def parseIntOfContent : FileContent → Option Int
  | .valid j => parseIntOfJsonText j
  | .invalid p => p

/-- Outcome of the `process.kill(pid, 0)` system call: `none` is success,
`some e` an error.  `esrch` is "no such process". -/
inductive KillErr where
  | esrch
  | eperm
  | other

/-- Embeds `isProcessRunning` (identical in start.ts and daemon.ts):
send signal 0 to the pid; `true` exactly when the send succeeds, `false`
on any error. -/
def isProcessRunning (kill0 : Int → Option KillErr) (pid : Int) : Bool :=
  match kill0 pid with
  | none => true
  | some _ => false

/-- The OS contract the prober relies on: `kill0` reports the outcome of a
signal-0 send, `alive` is ground-truth process existence, and signalling a
process that does not exist fails (with `ESRCH`). -/
structure OsWorld where
  kill0 : Int → Option KillErr
  alive : Int → Bool
  dead_fails : ∀ p, alive p = false → kill0 p ≠ none

/-- Outcome of the HTTP GET against `/health`: a 2xx response carrying a
JSON body, a non-2xx response, or a connection/timeout failure. -/
inductive HttpResp where
  | ok (body : Jsonv)
  | httpError
  | netFail

/-- Embeds `checkDaemonHealth` (start.ts): on a 2xx response, parse the
body and test `data.status === 'healthy' || data.status === 'ok'`; a
thrown property access (body `null`), a non-2xx response, or a network
failure all yield `false`. -/
def checkDaemonHealth (resp : HttpResp) : Bool :=
  match resp with
  | .ok body =>
    match fieldAccess "status" body with
    | some (some (.str s)) => s == "healthy" || s == "ok"
    | _ => false
  | _ => false

/-- Embeds `checkGatewayHealth` (start.ts): `response.ok` alone. -/
def checkGatewayHealth (resp : HttpResp) : Bool :=
  match resp with
  | .ok _ => true
  | _ => false

/-- Embeds `fetchDaemonHealth` (daemon.ts): return the parsed body of a
2xx response, `null` otherwise. -/
def fetchDaemonHealth (resp : HttpResp) : Option Jsonv :=
  match resp with
  | .ok body => some body
  | _ => none

/-- Embeds the readiness gate of the daemon start command (daemon.ts):
`health && health.status === 'healthy'` on the `fetchDaemonHealth`
result. -/
def daemonStartHealthGate (resp : HttpResp) : Bool :=
  match fetchDaemonHealth resp with
  | some h =>
    jsTruthy h &&
      (match fieldAccess "status" h with
       | some (some (.str s)) => s == "healthy"
       | _ => false)
  | none => false

/-- `HEALTH_CHECK_INTERVAL` from start.ts: the fixed 500 ms poll
interval of `waitForHealth`. -/
def HEALTH_CHECK_INTERVAL : Nat := 500

/-- Embeds the loop of `waitForHealth` (start.ts).  `probe k` is the
result of the k-th call of the health-check function; `elapsed` is the
wall-clock ms since the loop started (each iteration costs one
`HEALTH_CHECK_INTERVAL` sleep; the probe itself is instantaneous in the
model).  The loop runs while `elapsed < timeoutMs`, returning `true` at
the first successful probe. -/
def waitForHealthAux (probe : Nat → Bool) (timeoutMs k elapsed : Nat) : Bool :=
  if h : elapsed < timeoutMs then
    if probe k then true
    else waitForHealthAux probe timeoutMs (k + 1) (elapsed + HEALTH_CHECK_INTERVAL)
  else false
termination_by timeoutMs - elapsed
decreasing_by simp only [HEALTH_CHECK_INTERVAL]; omega

/-- Embeds `waitForHealth` (start.ts): poll from a fresh start time. -/
def waitForHealth (probe : Nat → Bool) (timeoutMs : Nat) : Bool :=
  waitForHealthAux probe timeoutMs 0 0

/-- The on-disk PID registry: one file per logical service name (the
source hardcodes `daemon.pid`, `gateway.pid`; the name is made a
parameter so the per-service independence is explicit). -/
def Fs : Type := String → Option FileContent

/-- Embeds the body of `readDaemonPid` (daemon.ts) on a single file:
`JSON.parse` of the file text, returned as-is; a missing file or a parse
failure is caught and becomes `null`. -/
def readDaemonPidFile (file : Option FileContent) : Option Jsonv :=
  match file with
  | some (.valid j) => some j
  | _ => none

/-- Embeds `readDaemonPid` (daemon.ts) over the registry. -/
def readDaemonPid (fs : Fs) (service : String) : Option Jsonv :=
  readDaemonPidFile (fs service)

/-- Serialisation of a daemon record by `JSON.stringify(info, null, 2)`:
an object with the five fields in declaration order. -/
def encodeDaemonInfo (info : DaemonInfo) : Jsonv :=
  .obj [("pid", .num info.pid), ("startedAt", .str info.startedAt),
        ("port", .num info.port), ("version", .str info.version),
        ("workDir", .str info.workDir)]

/-- Embeds `writeDaemonPid` (daemon.ts): overwrite the service's file
with the serialised record. -/
def writeDaemonPid (service : String) (info : DaemonInfo) (fs : Fs) : Fs :=
  fun s => if s = service then some (.valid (encodeDaemonInfo info)) else fs s

/-- Embeds `removeDaemonPid` (daemon.ts): unlink the service's file,
ignoring a missing-file error. -/
def removeDaemonPid (service : String) (fs : Fs) : Fs :=
  fun s => if s = service then none else fs s

/-- The pid value held by the result of `readPidFile` (start.ts):
either the JS value of a truthy `pid` field, a `parseInt` integer, or
`NaN` when `parseInt` fails. -/
inductive JsPid where
  | val (v : Jsonv)
  | int (n : Int)
  | nan

/-- Process-existence check on a `readPidFile` pid: `process.kill`
accepts only genuine numbers, throwing (hence `false` through the catch
of `isProcessRunning`) on `NaN` and on non-numeric values. -/
def isProcessRunningJs (kill0 : Int → Option KillErr) (p : JsPid) : Bool :=
  match p with
  | .val v =>
    match jsNumOf v with
    | some n => isProcessRunning kill0 n
    | none => false
  | .int n => isProcessRunning kill0 n
  | .nan => false

/-- Fallback of `data.pid || parseInt(content.trim(), 10)` when the
`pid` field is absent or falsy. -/
def fallbackPid (j : Jsonv) : JsPid :=
  match parseIntOfJsonText j with
  | some n => JsPid.int n
  | none => JsPid.nan

/-- Result of `readPidFile` (start.ts): the computed pid value and the
signal-0 liveness classification. -/
structure PidReadResult where
  pid : JsPid
  running : Bool

/-- Embeds `readPidFile` (start.ts): `JSON.parse` the file text, take
`data.pid || parseInt(content.trim(), 10)`, pair it with
`isProcessRunning`.  A missing file, a `JSON.parse` failure, or the
`TypeError` thrown by `data.pid` when the text is the JSON `null`
literal, are all caught and become `null`. -/
def readPidFile (kill0 : Int → Option KillErr) (file : Option FileContent) :
    Option PidReadResult :=
  match file with
  | some (.valid j) =>
    match fieldAccess "pid" j with
    | none => none
    | some fieldVal =>
      let p : JsPid :=
        match fieldVal with
        | some v => if jsTruthy v then JsPid.val v else fallbackPid j
        | none => fallbackPid j
      some ⟨p, isProcessRunningJs kill0 p⟩
  | _ => none

/-- Extraction `daemonInfo.pid` as usable by `process.kill`: the `pid`
field when present with a numeric value, otherwise nothing (any
non-number makes `process.kill` throw, which `isProcessRunning`
converts to `false`). -/
def extractPid (j : Jsonv) : Option Int :=
  match fieldAccess "pid" j with
  | some (some v) => jsNumOf v
  | _ => none

/-- A signal sent to the recorded pid: the signal-0 existence probe,
SIGTERM, or SIGKILL. -/
inductive Sig where
  | probe
  | term
  | kill
deriving DecidableEq

/-- The destructive signals of a trace, with the signal-0 probes
filtered out. -/
def destructive (l : List Sig) : List Sig :=
  l.filter (fun s => decide (s ≠ Sig.probe))

/-- User-visible outcome of the daemon stop command (daemon.ts). -/
inductive StopOutcome where
  | noDaemonFound
  | cleanedStale
  | forceKilled
  | stoppedGracefully
deriving DecidableEq

/-- Observable result of a daemon stop: the PID file afterwards, the
reported outcome, the ordered signals sent to the recorded pid, and
whether the command exited with an error. -/
structure StopResult where
  fileAfter : Option FileContent
  outcome : StopOutcome
  signals : List Sig
  isError : Bool

/-- State a daemon stop runs against: the current `daemon.pid` content
and the liveness of the recorded process as sampled by the signal-0
probe at each wall-clock instant (ms since the stop began). -/
structure StopCtx where
  file : Option FileContent
  probeAlive : Nat → Bool

/-- Embeds the grace-period wait loop of the daemon stop command
(daemon.ts): after SIGTERM, `while (isProcessRunning(pid))` probes at
500 ms steps; at a probe where the elapsed time strictly exceeds the
grace timeout, SIGKILL is sent and the loop breaks.  Returns the trace
of signals the loop sends. -/
def stopPollLoop (alive : Nat → Bool) (timeoutMs elapsed : Nat) : List Sig :=
  if alive elapsed then
    if timeoutMs < elapsed then [Sig.probe, Sig.kill]
    else Sig.probe :: stopPollLoop alive timeoutMs (elapsed + 500)
  else [Sig.probe]
termination_by timeoutMs + 1 - elapsed
decreasing_by omega

/-- The entry check `isProcessRunning(daemonInfo.pid)` of the stop
command: the time-0 probe when the record carries a numeric pid, and
`false` (the thrown `process.kill` is caught) otherwise. -/
def stopRunningCheck (ctx : StopCtx) (j : Jsonv) : Bool :=
  match extractPid j with
  | some _ => ctx.probeAlive 0
  | none => false

/-- Embeds the daemon stop command (daemon.ts `stopCommand`): read the
PID record; a missing/unparseable/falsy record reports "no daemon
found"; a record whose process the probe reports dead is cleaned up as
stale with a warning; otherwise `--force` sends SIGKILL at once, and
the graceful path sends SIGTERM followed by the poll loop.  Every path
ends by deleting the PID file; none exits with an error. -/
def stopCommand (ctx : StopCtx) (force : Bool) (timeoutMs : Nat) : StopResult :=
  match readDaemonPidFile ctx.file with
  | none => ⟨ctx.file, .noDaemonFound, [], false⟩
  | some j =>
    if jsTruthy j then
      if stopRunningCheck ctx j then
        if force then ⟨none, .forceKilled, [Sig.probe, Sig.kill], false⟩
        else
          ⟨none, .stoppedGracefully,
            Sig.probe :: Sig.term :: stopPollLoop ctx.probeAlive timeoutMs 0, false⟩
      else ⟨none, .cleanedStale, [Sig.probe], false⟩
    else ⟨ctx.file, .noDaemonFound, [], false⟩

/-- Result of `getGatewayStatus` (gateway.ts part of version.ts): the
`gateway.pid` file afterwards, the running flag, and the pid when
running.  (The health fetch it performs when running only decorates the
status with stats and never changes `running`; it is omitted.) -/
structure GwStatusResult where
  fileAfter : Option FileContent
  running : Bool
  pid : Option Int

/-- Embeds `getGatewayStatus`: read `gateway.pid`, `parseInt` its raw
text, probe the pid with signal 0.  A missing file reports not running;
a `NaN` pid makes `process.kill` throw, and the catch unlinks the file
and reports not running; a failed probe likewise unlinks the stale file
and reports not running. -/
def getGatewayStatus (kill0 : Int → Option KillErr) (file : Option FileContent) :
    GwStatusResult :=
  match file with
  | none => ⟨none, false, none⟩
  | some c =>
    match parseIntOfContent c with
    | none => ⟨none, false, none⟩
    | some pid =>
      if isProcessRunning kill0 pid then ⟨some c, true, some pid⟩
      else ⟨none, false, none⟩

/-- Observable result of a gateway stop (gateway.ts part of
version.ts): the `gateway.pid` file afterwards, the signals sent, and
whether a stop was reported. -/
structure GwStopResult where
  fileAfter : Option FileContent
  signals : List Sig
  stopped : Bool

/-- Embeds the gateway stop command: `getGatewayStatus`; when not
running, report so and leave the (possibly already cleaned) state;
when running, send SIGTERM to the recorded pid and unlink the PID file
at once, then sleep 1 s and report success — no re-probe between the
SIGTERM and the unlink. -/
def gatewayStop (kill0 : Int → Option KillErr) (file : Option FileContent) :
    GwStopResult :=
  let st := getGatewayStatus kill0 file
  if st.running then ⟨none, [Sig.probe, Sig.term], true⟩
  else ⟨st.fileAfter, [Sig.probe], false⟩

/-- Embeds `startDaemon` (start.ts): when the daemon executable was not
found, fail and leave the PID file untouched; otherwise spawn (pid of
the detached child given as `childPid`) and write the JSON record
`{ pid, startedAt, port, version: "1.1.0", workDir }` to `daemon.pid`.
Returns (success, PID file afterwards). -/
def startDaemon (execFound : Bool) (childPid : Int) (startedAt : String)
    (port : Int) (workDir : String) (file : Option FileContent) :
    Bool × Option FileContent :=
  if execFound then
    (true, some (.valid (encodeDaemonInfo ⟨childPid, startedAt, port, "1.1.0", workDir⟩)))
  else (false, file)

/-- Embeds `startGateway` (start.ts): on success write the bare decimal
pid text `String(child.pid)` to `gateway.pid`. -/
def startGateway (execFound : Bool) (childPid : Int) (file : Option FileContent) :
    Bool × Option FileContent :=
  if execFound then (true, some (.valid (.num childPid)))
  else (false, file)

/-- Embeds the already-running guard of the daemon start command
(daemon.ts): `existingPid && isProcessRunning(existingPid.pid)` on the
`readDaemonPid` result — the condition both for the "DAEMON ALREADY
RUNNING" box and for returning without spawning. -/
def daemonStartAlready (kill0 : Int → Option KillErr) (file : Option FileContent) :
    Bool :=
  match readDaemonPidFile file with
  | some j =>
    jsTruthy j &&
      (match extractPid j with
       | some n => isProcessRunning kill0 n
       | none => false)
  | none => false

/-- The daemon start command spawns exactly when the guard fails. -/
def daemonStartSpawns (kill0 : Int → Option KillErr) (file : Option FileContent) :
    Bool :=
  !(daemonStartAlready kill0 file)

/-- Embeds the daemon section of the combined start command (start.ts):
`daemonHealthy` holds when `readPidFile` reports the recorded process
running and `checkDaemonHealth` succeeds — then the "already running"
message is printed; `startDaemon` is called exactly when `daemonHealthy`
is false. -/
def combinedStartDaemonAlready (kill0 : Int → Option KillErr)
    (file : Option FileContent) (resp : HttpResp) : Bool :=
  match readPidFile kill0 file with
  | some r => r.running && checkDaemonHealth resp
  | none => false

/-- The combined start command spawns a daemon exactly when it was not
found already running and healthy. -/
def combinedStartDaemonSpawns (kill0 : Int → Option KillErr)
    (file : Option FileContent) (resp : HttpResp) : Bool :=
  !(combinedStartDaemonAlready kill0 file resp)

/-- Embeds the already-running guard of the gateway start command
(gateway.ts part of version.ts): `status.running` from
`getGatewayStatus` triggers the "Gateway already running" warning and
an immediate return. -/
def gatewayStartAlready (kill0 : Int → Option KillErr) (file : Option FileContent) :
    Bool :=
  (getGatewayStatus kill0 file).running

/-- The gateway start command spawns exactly when the guard fails. -/
def gatewayStartSpawns (kill0 : Int → Option KillErr) (file : Option FileContent) :
    Bool :=
  !(gatewayStartAlready kill0 file)

/-- The two independent liveness checks of the prober, side by side:
OS-level signal-0 check and application-level HTTP health check.  The
first component does not inspect `resp` at all. -/
def livenessProbe (kill0 : Int → Option KillErr) (pid : Int) (resp : HttpResp) :
    Bool × Bool :=
  (isProcessRunning kill0 pid, checkDaemonHealth resp)

/-- The polling loop started with `elapsed = k * interval` succeeds
exactly when some probe at index `j ≥ k` fires while its scheduled time
is still inside the timeout window. -/
theorem waitForHealthAux_true_iff (probe : Nat → Bool) (t k : Nat) :
    waitForHealthAux probe t k (k * HEALTH_CHECK_INTERVAL) = true ↔
      ∃ j, k ≤ j ∧ j * HEALTH_CHECK_INTERVAL < t ∧ probe j = true := by
  rw [waitForHealthAux]
  by_cases hlt : k * HEALTH_CHECK_INTERVAL < t
  · rw [dif_pos hlt]
    by_cases hp : probe k = true
    · rw [if_pos hp]
      simp only [true_iff]
      exact ⟨k, le_refl k, hlt, hp⟩
    · rw [if_neg hp]
      rw [show k * HEALTH_CHECK_INTERVAL + HEALTH_CHECK_INTERVAL
            = (k + 1) * HEALTH_CHECK_INTERVAL from (Nat.succ_mul k _).symm]
      rw [waitForHealthAux_true_iff probe t (k + 1)]
      constructor
      · rintro ⟨j, hj1, hj2, hj3⟩
        exact ⟨j, Nat.le_of_succ_le hj1, hj2, hj3⟩
      · rintro ⟨j, hj1, hj2, hj3⟩
        refine ⟨j, ?_, hj2, hj3⟩
        rcases Nat.lt_or_ge k j with h | h
        · exact h
        · exact absurd hj3 (by rw [Nat.le_antisymm h hj1]; exact hp)
  · rw [dif_neg hlt]
    constructor
    · intro h
      cases h
    · rintro ⟨j, hj1, hj2, _⟩
      exact absurd (Nat.lt_of_le_of_lt (Nat.mul_le_mul_right _ hj1) hj2) hlt
termination_by t - k * HEALTH_CHECK_INTERVAL
decreasing_by simp only [HEALTH_CHECK_INTERVAL] at hlt ⊢; omega

/-- C1: `waitForHealth` calls the probe on the fixed 500 ms interval and
returns true exactly when some probe call succeeds before the timeout
elapses (and hence false when the probe never succeeds in the window). -/
theorem waitForHealth_becomes_healthy_iff (probe : Nat → Bool) (timeoutMs : Nat) :
    waitForHealth probe timeoutMs = true ↔
      ∃ k, k * HEALTH_CHECK_INTERVAL < timeoutMs ∧ probe k = true := by
  have h := waitForHealthAux_true_iff probe timeoutMs 0
  rw [Nat.zero_mul] at h
  rw [waitForHealth, h]
  constructor
  · rintro ⟨j, _, hj2, hj3⟩
    exact ⟨j, hj2, hj3⟩
  · rintro ⟨j, hj2, hj3⟩
    exact ⟨j, Nat.zero_le j, hj2, hj3⟩

/-- C2: writing a record to the PID registry and reading the same
service back yields exactly the serialised record, and the
serialisation is injective, so the record read equals the one written. -/
theorem write_then_read_roundtrip (fs : Fs) (S : String) (r : DaemonInfo) :
    readDaemonPid (writeDaemonPid S r fs) S = some (encodeDaemonInfo r) ∧
    ∀ a b : DaemonInfo, encodeDaemonInfo a = encodeDaemonInfo b → a = b := by
  constructor
  · simp [readDaemonPid, readDaemonPidFile, writeDaemonPid]
  · intro a b h
    cases a
    cases b
    simp only [encodeDaemonInfo, Jsonv.obj.injEq, List.cons.injEq,
      Prod.mk.injEq, Jsonv.num.injEq, Jsonv.str.injEq, and_true,
      true_and] at h
    simp_all

/-- A sample daemon record used by concrete witnesses. -/
def sampleInfo : DaemonInfo :=
  ⟨12345, "2026-01-01T00:00:00.000Z", 18790, "0.1.0", "/tmp/hauba"⟩

/-- Witness for C2 at a concrete registry, service name and record. -/
theorem write_then_read_roundtrip_witness :
    readDaemonPid (writeDaemonPid "daemon" sampleInfo (fun _ => none)) "daemon" =
      some (encodeDaemonInfo sampleInfo) ∧ sampleInfo = sampleInfo :=
  ⟨(write_then_read_roundtrip (fun _ => none) "daemon" sampleInfo).1,
   (write_then_read_roundtrip (fun _ => none) "daemon" sampleInfo).2
     sampleInfo sampleInfo rfl⟩

/-- C3: reading a service with a missing or malformed PID file returns
null rather than an error, for both registry readers; the stop command
treats the missing record as "no daemon found" without erroring, and
both start guards treat it as not running (they proceed to spawn). -/
theorem read_missing_or_malformed_null (fs : Fs) (S : String)
    (kill0 : Int → Option KillErr) (ip : Option Int) (ctx : StopCtx) :
    (fs S = none → readDaemonPid fs S = none) ∧
    (fs S = some (.invalid ip) → readDaemonPid fs S = none) ∧
    readPidFile kill0 none = none ∧
    readPidFile kill0 (some (.invalid ip)) = none ∧
    (ctx.file = none →
      stopCommand ctx false 10000 = ⟨none, .noDaemonFound, [], false⟩) ∧
    daemonStartSpawns kill0 none = true ∧
    combinedStartDaemonSpawns kill0 none .netFail = true := by
  refine ⟨?_, ?_, rfl, rfl, ?_, rfl, rfl⟩
  · intro h
    simp [readDaemonPid, readDaemonPidFile, h]
  · intro h
    simp [readDaemonPid, readDaemonPidFile, h]
  · intro h
    simp [stopCommand, readDaemonPidFile, h]

/-- Witness for C3 at a concrete empty registry and stop context. -/
theorem read_missing_or_malformed_null_witness :
    readDaemonPid (fun _ => none) "daemon" = none ∧
    stopCommand ⟨none, fun _ => true⟩ false 10000 =
      ⟨none, .noDaemonFound, [], false⟩ :=
  ⟨(read_missing_or_malformed_null (fun _ => none) "daemon" (fun _ => none)
      none ⟨none, fun _ => true⟩).1 rfl,
   (read_missing_or_malformed_null (fun _ => none) "daemon" (fun _ => none)
      none ⟨none, fun _ => true⟩).2.2.2.2.1 rfl⟩

/-- C4: the OS-level liveness check returns true exactly when the
signal-0 send succeeds and false on any error, and for a dead process
(whose signal-0 send the OS rejects) it returns false whatever the HTTP
health check would say. -/
theorem os_liveness_check_spec (w : OsWorld) (pid : Int) :
    (w.kill0 pid = none → isProcessRunning w.kill0 pid = true) ∧
    (∀ e, w.kill0 pid = some e → isProcessRunning w.kill0 pid = false) ∧
    (w.alive pid = false → ∀ resp : HttpResp,
      (livenessProbe w.kill0 pid resp).1 = false) := by
  refine ⟨?_, ?_, ?_⟩
  · intro h
    simp [isProcessRunning, h]
  · intro e h
    simp [isProcessRunning, h]
  · intro h resp
    have hk := w.dead_fails pid h
    simp only [livenessProbe, isProcessRunning]
    cases hke : w.kill0 pid with
    | none => exact absurd hke hk
    | some e => rfl

/-- A concrete world where process 1 is alive and everything else is
dead (signal 0 fails with ESRCH). -/
def mixedWorld : OsWorld :=
  ⟨fun p => if p = 1 then none else some .esrch,
   fun p => decide (p = 1),
   by
     intro p hp
     simp only [decide_eq_false_iff_not] at hp
     simp [hp]⟩

/-- Witness for C4 at concrete pids of `mixedWorld`. -/
theorem os_liveness_check_spec_witness :
    isProcessRunning mixedWorld.kill0 1 = true ∧
    isProcessRunning mixedWorld.kill0 2 = false ∧
    (livenessProbe mixedWorld.kill0 2
      (.ok (.obj [("status", .str "healthy")]))).1 = false :=
  ⟨(os_liveness_check_spec mixedWorld 1).1 rfl,
   (os_liveness_check_spec mixedWorld 2).2.1 .esrch rfl,
   (os_liveness_check_spec mixedWorld 2).2.2 rfl
     (.ok (.obj [("status", .str "healthy")]))⟩

/-- C5: stopping a service whose recorded pid the signal-0 probe reports
dead deletes the stale record, reports the stale-cleanup warning (not an
error) and completes without error; the gateway status check likewise
unlinks a stale record and reports not running without erroring. -/
theorem stop_stale_record_cleanup (ctx : StopCtx) (info : DaemonInfo)
    (force : Bool) (timeoutMs : Nat) (kill0 : Int → Option KillErr) (n : Int)
    (hfile : ctx.file = some (.valid (encodeDaemonInfo info)))
    (hdead : ctx.probeAlive 0 = false) :
    stopCommand ctx force timeoutMs = ⟨none, .cleanedStale, [Sig.probe], false⟩ ∧
    (isProcessRunning kill0 n = false →
      getGatewayStatus kill0 (some (.valid (.num n))) = ⟨none, false, none⟩) := by
  constructor
  · simp [stopCommand, hfile, readDaemonPidFile, jsTruthy, stopRunningCheck,
      extractPid, fieldAccess, encodeDaemonInfo, List.lookup, jsNumOf, hdead]
  · intro h
    simp [getGatewayStatus, parseIntOfContent, parseIntOfJsonText, h]

/-- Witness for C5: a concrete stale record under a probe that reports
everything dead. -/
theorem stop_stale_record_cleanup_witness :
    stopCommand ⟨some (.valid (encodeDaemonInfo sampleInfo)), fun _ => false⟩
        false 10000 = ⟨none, .cleanedStale, [Sig.probe], false⟩ ∧
    getGatewayStatus (fun _ => some .esrch) (some (.valid (.num 99))) =
      ⟨none, false, none⟩ :=
  ⟨(stop_stale_record_cleanup
      ⟨some (.valid (encodeDaemonInfo sampleInfo)), fun _ => false⟩
      sampleInfo false 10000 (fun _ => some .esrch) 99 rfl rfl).1,
   (stop_stale_record_cleanup
      ⟨some (.valid (encodeDaemonInfo sampleInfo)), fun _ => false⟩
      sampleInfo false 10000 (fun _ => some .esrch) 99 rfl rfl).2 rfl⟩

/-- C6: when a PID record exists, its process answers the signal-0 probe,
and the `/health` endpoint reports healthy, all three start commands
report "already running" and do not spawn a second process. -/
theorem start_already_running_short_circuit
    (kill0 : Int → Option KillErr) (info : DaemonInfo) (resp : HttpResp)
    (gwPid : Int)
    (hpid : info.pid ≠ 0)
    (halive : kill0 info.pid = none)
    (hhealthy : checkDaemonHealth resp = true)
    (hgw : kill0 gwPid = none) :
    daemonStartAlready kill0 (some (.valid (encodeDaemonInfo info))) = true ∧
    daemonStartSpawns kill0 (some (.valid (encodeDaemonInfo info))) = false ∧
    combinedStartDaemonAlready kill0 (some (.valid (encodeDaemonInfo info)))
      resp = true ∧
    combinedStartDaemonSpawns kill0 (some (.valid (encodeDaemonInfo info)))
      resp = false ∧
    gatewayStartAlready kill0 (some (.valid (.num gwPid))) = true ∧
    gatewayStartSpawns kill0 (some (.valid (.num gwPid))) = false := by
  have h1 : daemonStartAlready kill0 (some (.valid (encodeDaemonInfo info))) = true := by
    simp [daemonStartAlready, readDaemonPidFile, jsTruthy, extractPid,
      fieldAccess, encodeDaemonInfo, List.lookup, jsNumOf, isProcessRunning, halive]
  have h2 : combinedStartDaemonAlready kill0 (some (.valid (encodeDaemonInfo info)))
      resp = true := by
    simp [combinedStartDaemonAlready, readPidFile, fieldAccess, encodeDaemonInfo,
      List.lookup, jsTruthy, hpid, isProcessRunningJs, jsNumOf, isProcessRunning,
      halive, hhealthy]
  have h3 : gatewayStartAlready kill0 (some (.valid (.num gwPid))) = true := by
    simp [gatewayStartAlready, getGatewayStatus, parseIntOfContent,
      parseIntOfJsonText, isProcessRunning, hgw]
  exact ⟨h1, by simp [daemonStartSpawns, h1], h2,
    by simp [combinedStartDaemonSpawns, h2], h3,
    by simp [gatewayStartSpawns, h3]⟩

/-- Witness for C6: a concrete record, a world where its pid answers the
probe, and a healthy `/health` body. -/
theorem start_already_running_short_circuit_witness :
    daemonStartSpawns (fun _ => none)
      (some (.valid (encodeDaemonInfo sampleInfo))) = false ∧
    combinedStartDaemonSpawns (fun _ => none)
      (some (.valid (encodeDaemonInfo sampleInfo)))
      (.ok (.obj [("status", .str "healthy")])) = false ∧
    gatewayStartSpawns (fun _ => none) (some (.valid (.num 7))) = false :=
  ⟨(start_already_running_short_circuit (fun _ => none) sampleInfo
      (.ok (.obj [("status", .str "healthy")])) 7 (by decide) rfl rfl rfl).2.1,
   (start_already_running_short_circuit (fun _ => none) sampleInfo
      (.ok (.obj [("status", .str "healthy")])) 7 (by decide) rfl rfl rfl).2.2.2.1,
   (start_already_running_short_circuit (fun _ => none) sampleInfo
      (.ok (.obj [("status", .str "healthy")])) 7 (by decide) rfl rfl rfl).2.2.2.2.2⟩

/-- C7 counterexample: `checkDaemonHealth` classifies a 2xx response with
body `{"status":"ok"}` as ready, although its status field is the string
"ok", not "healthy" — the check is not a strict comparison against
"healthy" alone. -/
theorem daemon_health_accepts_ok_status :
    checkDaemonHealth (.ok (.obj [("status", .str "ok")])) = true ∧
    fieldAccess "status" (.obj [("status", .str "ok")]) =
      some (some (.str "ok")) ∧
    "ok" ≠ "healthy" :=
  ⟨rfl, rfl, by decide⟩

/-- C7 amended: `checkDaemonHealth` (the combined start command's daemon
checker) reports ready exactly when the HTTP GET succeeds and the body's
status field is the string "healthy" or the string "ok"; the daemon
start command's readiness gate (`fetchDaemonHealth` plus
`health.status === "healthy"`) accepts exactly a truthy body whose
status field is the string "healthy".  Any other body, non-2xx response
or connection failure reports not ready. -/
theorem daemon_health_check_characterization (resp : HttpResp) :
    (checkDaemonHealth resp = true ↔
      ∃ body s, resp = .ok body ∧
        fieldAccess "status" body = some (some (.str s)) ∧
        (s = "healthy" ∨ s = "ok")) ∧
    (daemonStartHealthGate resp = true ↔
      ∃ body, resp = .ok body ∧ jsTruthy body = true ∧
        fieldAccess "status" body = some (some (.str "healthy"))) := by
  constructor
  · constructor
    · intro h
      cases resp with
      | ok body =>
        cases hfa : fieldAccess "status" body with
        | none => simp [checkDaemonHealth, hfa] at h
        | some fv =>
          cases fv with
          | none => simp [checkDaemonHealth, hfa] at h
          | some v =>
            cases v with
            | str s =>
              refine ⟨body, s, rfl, hfa, ?_⟩
              simp only [checkDaemonHealth, hfa, Bool.or_eq_true,
                beq_iff_eq] at h
              exact h
            | num n => simp [checkDaemonHealth, hfa] at h
            | numOther v ip => simp [checkDaemonHealth, hfa] at h
            | boolv b => simp [checkDaemonHealth, hfa] at h
            | nullv => simp [checkDaemonHealth, hfa] at h
            | arr => simp [checkDaemonHealth, hfa] at h
            | obj fields => simp [checkDaemonHealth, hfa] at h
      | httpError => simp [checkDaemonHealth] at h
      | netFail => simp [checkDaemonHealth] at h
    · rintro ⟨body, s, rfl, hfa, hs⟩
      rcases hs with h | h <;> simp [checkDaemonHealth, hfa, h]
  · constructor
    · intro h
      cases resp with
      | ok body =>
        refine ⟨body, rfl, ?_, ?_⟩
        · simp only [daemonStartHealthGate, fetchDaemonHealth,
            Bool.and_eq_true] at h
          exact h.1
        · simp only [daemonStartHealthGate, fetchDaemonHealth,
            Bool.and_eq_true] at h
          cases hfa : fieldAccess "status" body with
          | none => rw [hfa] at h; exact absurd h.2 (by simp)
          | some fv =>
            cases fv with
            | none => rw [hfa] at h; exact absurd h.2 (by simp)
            | some v =>
              cases v with
              | str s =>
                rw [hfa] at h
                have hs : s = "healthy" := by
                  have := h.2
                  simpa [beq_iff_eq] using this
                rw [hs]
              | num n => rw [hfa] at h; exact absurd h.2 (by simp)
              | numOther v ip => rw [hfa] at h; exact absurd h.2 (by simp)
              | boolv b => rw [hfa] at h; exact absurd h.2 (by simp)
              | nullv => rw [hfa] at h; exact absurd h.2 (by simp)
              | arr => rw [hfa] at h; exact absurd h.2 (by simp)
              | obj fields => rw [hfa] at h; exact absurd h.2 (by simp)
      | httpError => simp [daemonStartHealthGate, fetchDaemonHealth] at h
      | netFail => simp [daemonStartHealthGate, fetchDaemonHealth] at h
    · rintro ⟨body, rfl, htr, hfa⟩
      simp [daemonStartHealthGate, fetchDaemonHealth, htr, hfa]

/-- If the grace-period poll loop sent SIGKILL, some probe after the
grace timeout had elapsed still found the process alive. -/
theorem stopPollLoop_kill_implies_late_alive (alive : Nat → Bool) (t e : Nat) :
    Sig.kill ∈ stopPollLoop alive t e → ∃ e2, t < e2 ∧ alive e2 = true := by
  rw [stopPollLoop]
  by_cases ha : alive e = true
  · by_cases ht : t < e
    · intro _
      exact ⟨e, ht, ha⟩
    · rw [if_pos ha, if_neg ht]
      intro hmem
      have hrec : Sig.kill ∈ stopPollLoop alive t (e + 500) := by
        rcases List.mem_cons.mp hmem with h | h
        · cases h
        · exact h
      exact stopPollLoop_kill_implies_late_alive alive t (e + 500) hrec
  · rw [if_neg ha]
    intro hmem
    rcases List.mem_cons.mp hmem with h | h
    · cases h
    · cases h
termination_by t + 1 - e
decreasing_by omega

/-- If the grace-period poll loop finished without SIGKILL, its last
probe observed the process not running. -/
theorem stopPollLoop_no_kill_observed_dead (alive : Nat → Bool) (t e : Nat) :
    Sig.kill ∉ stopPollLoop alive t e → ∃ e2, alive e2 = false := by
  rw [stopPollLoop]
  by_cases ha : alive e = true
  · by_cases ht : t < e
    · rw [if_pos ha, if_pos ht]
      intro h
      exact absurd (by simp) h
    · rw [if_pos ha, if_neg ht]
      intro h
      refine stopPollLoop_no_kill_observed_dead alive t (e + 500) ?_
      intro hmem
      exact h (List.mem_cons.mpr (Or.inr hmem))
  · intro _
    exact ⟨e, by simpa using ha⟩
termination_by t + 1 - e
decreasing_by omega

/-- C8: on a non-forced stop of a live recorded process, the first
non-probe signal sent to the pid is SIGTERM; SIGKILL appears in the
trace only if some probe after the grace timeout still found the
process alive; with `--force` the only destructive signal is an
immediate SIGKILL. -/
theorem stop_sigterm_then_sigkill (ctx : StopCtx) (j : Jsonv) (n : Int)
    (timeoutMs : Nat)
    (hfile : readDaemonPidFile ctx.file = some j)
    (htruthy : jsTruthy j = true)
    (hpid : extractPid j = some n)
    (halive : ctx.probeAlive 0 = true) :
    (destructive (stopCommand ctx false timeoutMs).signals).head? =
      some Sig.term ∧
    (Sig.kill ∈ (stopCommand ctx false timeoutMs).signals →
      ∃ e, timeoutMs < e ∧ ctx.probeAlive e = true) ∧
    destructive (stopCommand ctx true timeoutMs).signals = [Sig.kill] := by
  have hrun : stopRunningCheck ctx j = true := by
    simp [stopRunningCheck, hpid, halive]
  have hsig : (stopCommand ctx false timeoutMs).signals =
      Sig.probe :: Sig.term :: stopPollLoop ctx.probeAlive timeoutMs 0 := by
    simp [stopCommand, hfile, htruthy, hrun]
  have hsigF : (stopCommand ctx true timeoutMs).signals =
      [Sig.probe, Sig.kill] := by
    simp [stopCommand, hfile, htruthy, hrun]
  refine ⟨?_, ?_, ?_⟩
  · rw [hsig]
    simp [destructive, List.filter]
  · rw [hsig]
    intro hmem
    have hloop : Sig.kill ∈ stopPollLoop ctx.probeAlive timeoutMs 0 := by
      rcases List.mem_cons.mp hmem with h | h
      · cases h
      · rcases List.mem_cons.mp h with h2 | h2
        · cases h2
        · exact h2
    exact stopPollLoop_kill_implies_late_alive ctx.probeAlive timeoutMs 0 hloop
  · rw [hsigF]
    simp [destructive, List.filter]

/-- A concrete stop context: a record for pid 7 whose process answers
the probe for the first 300 ms after SIGTERM and is gone afterwards. -/
def stopCtxSample : StopCtx :=
  ⟨some (.valid (.obj [("pid", .num 7)])), fun e => decide (e < 300)⟩

/-- Witness for C8 at `stopCtxSample` with the default 10 s grace
period. -/
theorem stop_sigterm_then_sigkill_witness :
    (destructive (stopCommand stopCtxSample false 10000).signals).head? =
      some Sig.term ∧
    destructive (stopCommand stopCtxSample true 10000).signals = [Sig.kill] :=
  ⟨(stop_sigterm_then_sigkill stopCtxSample (.obj [("pid", .num 7)]) 7 10000
      rfl rfl rfl rfl).1,
   (stop_sigterm_then_sigkill stopCtxSample (.obj [("pid", .num 7)]) 7 10000
      rfl rfl rfl rfl).2.2⟩

/-- C9 counterexample: the gateway stop command, run against a recorded
pid whose process answers every signal-0 probe (it has not yet reacted
to SIGTERM), still deletes the PID record: the record is removed while
the prober confirms the process alive, with no confirmation between the
SIGTERM and the unlink. -/
theorem gateway_stop_deletes_before_confirmation :
    (gatewayStop (fun _ => none) (some (.valid (.num 7)))).fileAfter = none ∧
    (gatewayStop (fun _ => none) (some (.valid (.num 7)))).stopped = true ∧
    (gatewayStop (fun _ => none) (some (.valid (.num 7)))).signals =
      [Sig.probe, Sig.term] ∧
    isProcessRunning (fun _ => none) 7 = true :=
  ⟨rfl, rfl, rfl, rfl⟩

/-- C9 amended: the PID record is created on successful launch, and the
daemon stop deletes it only after a probe observed the process not
running or after SIGKILL was sent, and the gateway status check deletes
it only when unreadable, unparseable or failing the signal-0 probe;
the gateway stop command, however, deletes the record immediately after
sending SIGTERM, without re-probing the process. -/
theorem pid_record_lifecycle :
    (∀ childPid startedAt port workDir file,
      startDaemon true childPid startedAt port workDir file =
        (true, some (.valid (encodeDaemonInfo
          ⟨childPid, startedAt, port, "1.1.0", workDir⟩))) ∧
      startGateway true childPid file = (true, some (.valid (.num childPid)))) ∧
    (∀ ctx force timeoutMs,
      (stopCommand ctx force timeoutMs).fileAfter = none →
      ctx.file = none ∨
      (∃ j, readDaemonPidFile ctx.file = some j ∧
        stopRunningCheck ctx j = false) ∨
      Sig.kill ∈ (stopCommand ctx force timeoutMs).signals ∨
      ∃ e, ctx.probeAlive e = false) ∧
    (∀ kill0 c, (getGatewayStatus kill0 (some c)).fileAfter = none →
      parseIntOfContent c = none ∨
      ∃ n, parseIntOfContent c = some n ∧ isProcessRunning kill0 n = false) ∧
    (∀ kill0 file, (getGatewayStatus kill0 file).running = true →
      (gatewayStop kill0 file).fileAfter = none ∧
      destructive (gatewayStop kill0 file).signals = [Sig.term]) := by
  refine ⟨?_, ?_, ?_, ?_⟩
  · intro childPid startedAt port workDir file
    exact ⟨rfl, rfl⟩
  · intro ctx force timeoutMs hdel
    cases hr : readDaemonPidFile ctx.file with
    | none =>
      left
      have hfa : (stopCommand ctx force timeoutMs).fileAfter = ctx.file := by
        simp [stopCommand, hr]
      rw [hfa] at hdel
      exact hdel
    | some j =>
      by_cases htr : jsTruthy j = true
      · by_cases hrun : stopRunningCheck ctx j = true
        · cases force with
          | true =>
            right; right; left
            have hsig : (stopCommand ctx true timeoutMs).signals =
                [Sig.probe, Sig.kill] := by
              simp [stopCommand, hr, htr, hrun]
            rw [hsig]
            exact List.mem_cons.mpr (Or.inr (List.mem_cons.mpr (Or.inl rfl)))
          | false =>
            by_cases hkill :
                Sig.kill ∈ stopPollLoop ctx.probeAlive timeoutMs 0
            · right; right; left
              have hsig : (stopCommand ctx false timeoutMs).signals =
                  Sig.probe :: Sig.term ::
                    stopPollLoop ctx.probeAlive timeoutMs 0 := by
                simp [stopCommand, hr, htr, hrun]
              rw [hsig]
              exact List.mem_cons.mpr
                (Or.inr (List.mem_cons.mpr (Or.inr hkill)))
            · right; right; right
              exact stopPollLoop_no_kill_observed_dead
                ctx.probeAlive timeoutMs 0 hkill
        · right; left
          exact ⟨j, rfl, by simpa using hrun⟩
      · left
        have hfa : (stopCommand ctx force timeoutMs).fileAfter = ctx.file := by
          simp [stopCommand, hr, htr]
        rw [hfa] at hdel
        exact hdel
  · intro kill0 c hdel
    cases hp : parseIntOfContent c with
    | none =>
      left
      rfl
    | some n =>
      right
      refine ⟨n, rfl, ?_⟩
      by_cases hr : isProcessRunning kill0 n = true
      · exfalso
        have hfa : (getGatewayStatus kill0 (some c)).fileAfter = some c := by
          simp [getGatewayStatus, hp, hr]
        rw [hfa] at hdel
        cases hdel
      · simpa using hr
  · intro kill0 file hrun
    constructor
    · simp [gatewayStop, hrun]
    · simp [gatewayStop, hrun, destructive, List.filter]

/-- A stop context holding a record for pid 7 whose process answers no
probe (a stale record). -/
def staleCtx : StopCtx :=
  ⟨some (.valid (.obj [("pid", .num 7)])), fun _ => false⟩

/-- Witness for C9 at concrete launch, stale-stop and gateway-stop
instances. -/
theorem pid_record_lifecycle_witness :
    startGateway true 7 none = (true, some (.valid (.num 7))) ∧
    (staleCtx.file = none ∨
     (∃ j, readDaemonPidFile staleCtx.file = some j ∧
        stopRunningCheck staleCtx j = false) ∨
     Sig.kill ∈ (stopCommand staleCtx false 10000).signals ∨
     ∃ e, staleCtx.probeAlive e = false) ∧
    (gatewayStop (fun _ => none) (some (.valid (.num 7)))).fileAfter = none :=
  ⟨(pid_record_lifecycle.1 7 "2026-01-01" 18789 "/tmp" none).2,
   pid_record_lifecycle.2.1 staleCtx false 10000 rfl,
   (pid_record_lifecycle.2.2.2 (fun _ => none) (some (.valid (.num 7))) rfl).1⟩

/-- C10 counterexample: `readPidFile` on the file text `{}` — valid JSON
that is neither a pid-carrying record nor a plain integer — does not
return null: `JSON.parse` succeeds, `data.pid` is undefined, `parseInt`
yields NaN, and a result with a NaN pid classified not-running is
returned. -/
theorem readPidFile_nonpid_json_not_null :
    readPidFile (fun _ => none) (some (.valid (.obj []))) =
      some ⟨JsPid.nan, false⟩ ∧
    readPidFile (fun _ => none) (some (.valid (.obj []))) ≠ none :=
  ⟨rfl, by simp [readPidFile, fieldAccess, fallbackPid, parseIntOfJsonText]⟩

/-- C10 amended: `readPidFile` accepts both launcher formats — a JSON
object record with a nonzero pid field yields that pid, and a plain
decimal integer (the gateway's `String(child.pid)` format) yields the
parsed integer, each paired with the signal-0 liveness classification.
It returns null only when the file is missing, when `JSON.parse` throws,
or when the text is the JSON `null` literal.  Any other parseable JSON
yields a non-null result whose pid falls back to `parseInt` of the raw
file text: for a number text that is not a canonical integer (such as
`3.5` or `1e3`) this is the integer made of the leading digits, paired
with that integer's own signal-0 classification; when the pid field is
absent or falsy and the text has no leading digits, the pid is NaN,
classified not running. -/
theorem readPidFile_accepted_formats (kill0 : Int → Option KillErr)
    (info : DaemonInfo) (n tp : Int) (ip v : Option Int)
    (file : Option FileContent) (j : Jsonv) :
    (info.pid ≠ 0 →
      readPidFile kill0 (some (.valid (encodeDaemonInfo info))) =
        some ⟨JsPid.val (.num info.pid), isProcessRunning kill0 info.pid⟩) ∧
    readPidFile kill0 (some (.valid (.num n))) =
      some ⟨JsPid.int n, isProcessRunning kill0 n⟩ ∧
    readPidFile kill0 (startGateway true n file).2 =
      some ⟨JsPid.int n, isProcessRunning kill0 n⟩ ∧
    readPidFile kill0 none = none ∧
    readPidFile kill0 (some (.invalid ip)) = none ∧
    readPidFile kill0 (some (.valid .nullv)) = none ∧
    readPidFile kill0 (some (.valid (.numOther v tp))) =
      some ⟨JsPid.int tp, isProcessRunning kill0 tp⟩ ∧
    ((fieldAccess "pid" j = some none ∨
      ∃ w, fieldAccess "pid" j = some (some w) ∧ jsTruthy w = false) →
      parseIntOfJsonText j = none →
      readPidFile kill0 (some (.valid j)) = some ⟨JsPid.nan, false⟩) := by
  refine ⟨?_, ?_, ?_, rfl, rfl, rfl, ?_, ?_⟩
  · intro hpid
    simp [readPidFile, fieldAccess, encodeDaemonInfo, List.lookup, jsTruthy,
      hpid, isProcessRunningJs, jsNumOf]
  · simp [readPidFile, fieldAccess, fallbackPid, parseIntOfJsonText,
      isProcessRunningJs]
  · simp [startGateway, readPidFile, fieldAccess, fallbackPid,
      parseIntOfJsonText, isProcessRunningJs]
  · simp [readPidFile, fieldAccess, fallbackPid, parseIntOfJsonText,
      isProcessRunningJs]
  · intro hfa hpi
    rcases hfa with hfa | ⟨w, hfa, hw⟩
    · simp [readPidFile, hfa, fallbackPid, hpi, isProcessRunningJs]
    · simp [readPidFile, hfa, hw, fallbackPid, hpi, isProcessRunningJs]

/-- Witness for C10 at the sample record, a plain integer file, the file
text `3.5` (a non-canonical number whose `parseInt` is 3), the record
`{"pid": 0}` (a present-but-falsy pid field), and the body `true`
(parseable JSON with no pid and no leading digits). -/
theorem readPidFile_accepted_formats_witness :
    readPidFile (fun _ => none)
      (some (.valid (encodeDaemonInfo sampleInfo))) =
      some ⟨JsPid.val (.num 12345), true⟩ ∧
    readPidFile (fun _ => some .esrch) (some (.valid (.num 42))) =
      some ⟨JsPid.int 42, false⟩ ∧
    readPidFile (fun _ => none) (some (.valid (.numOther none 3))) =
      some ⟨JsPid.int 3, true⟩ ∧
    readPidFile (fun _ => none)
      (some (.valid (.obj [("pid", .num 0)]))) = some ⟨JsPid.nan, false⟩ ∧
    readPidFile (fun _ => none) (some (.valid (.boolv true))) =
      some ⟨JsPid.nan, false⟩ :=
  ⟨(readPidFile_accepted_formats (fun _ => none) sampleInfo 42 3 none none none
      (.boolv true)).1 (by decide),
   (readPidFile_accepted_formats (fun _ => some .esrch) sampleInfo 42 3 none
      none none (.boolv true)).2.1,
   (readPidFile_accepted_formats (fun _ => none) sampleInfo 42 3 none none none
      (.boolv true)).2.2.2.2.2.2.1,
   (readPidFile_accepted_formats (fun _ => none) sampleInfo 42 3 none none none
      (.obj [("pid", .num 0)])).2.2.2.2.2.2.2
     (Or.inr ⟨.num 0, rfl, rfl⟩) rfl,
   (readPidFile_accepted_formats (fun _ => none) sampleInfo 42 3 none none none
      (.boolv true)).2.2.2.2.2.2.2 (Or.inl rfl) rfl⟩

end Hauba
